import Mathlib

/-!
# Verification of the agent-reg MCP registry and gateway

A shallow embedding, in Lean 4, of the core of the `agent-reg` repository
(`src/backend/app/src/`): the SQLite-backed repository (`database.py`), the
MCP server registry endpoints (`main.py`), the connection manager
(`mcp_connection_manager.py`), the discovery client (`mcp_client.py`) and the
gateway JSON-RPC dispatch (`mcp_gateway_routes.py`).

Modelling conventions:
* Python dicts/JSON blobs are modelled by the inductive `Json`; Python's
  truthiness test on a JSON value is `Json.truthy`.
* SQLite tables are lists of row structures, in rowid (insertion) order.
* The CPython `sqlite3` connection semantics that matter here are modelled
  explicitly: `total_changes` is a cumulative per-connection counter, and
  foreign-key enforcement is OFF by default (the source never issues
  `PRAGMA foreign_keys = ON`, so the `ON DELETE CASCADE` clauses in the
  schema are inert).
* Strings are treated as ASCII data: SQLite's `LIKE` is case-insensitive for
  the ASCII range only, and on ASCII data Python's `str.lower` agrees with
  the ASCII lowering used here.
-/

namespace AgentReg

/-- A JSON value, as produced by `json.loads` / pydantic `model_dump`. -/
inductive Json where
  | null
  | bool (b : Bool)
  | num (n : Int)
  | str (s : String)
  | arr (xs : List Json)
  | obj (kvs : List (String × Json))

/-- Python truthiness of a JSON value (`if x:`):
`None`, `False`, `0`, `""`, `[]` and `{}` are falsy. -/
def Json.truthy : Json → Bool
  | .null => false
  | .bool b => b
  | .num n => n != 0
  | .str s => s != ""
  | .arr xs => !xs.isEmpty
  | .obj kvs => !kvs.isEmpty

/-- A tool capability (`MCPToolCapability` in `mcp_models.py`):
`name` is required, `description` and `inputSchema` optional. -/
structure ToolCap where
  name : String
  description : Option String
  inputSchema : Option Json

/-- A resource capability (`MCPResourceCapability`): `uri` and `name`
required, `description` and `mimeType` optional. -/
structure ResourceCap where
  uri : String
  name : String
  description : Option String
  mimeType : Option String

/-- A prompt capability (`MCPPromptCapability`): `name` required,
`arguments` an optional list of JSON objects. -/
structure PromptCap where
  name : String
  description : Option String
  arguments : Option (List Json)

/-- A discovered capabilities triple (`MCPServerCapabilities`). -/
structure Capabilities where
  tools : List ToolCap
  resources : List ResourceCap
  prompts : List PromptCap

/-- A row of the `mcp_servers` table. -/
structure ServerRow where
  id : String
  type : String
  description : Option String
  config : Json
  created_at : String
  last_verified : Option String
  status : String

/-- A row of the `mcp_tools` table. `input_schema` is the TEXT column:
`none` models SQL NULL, `some j` models the `json.dumps` of `j`. -/
structure ToolRow where
  server_id : String
  name : String
  description : Option String
  input_schema : Option Json

/-- A row of the `mcp_resources` table. -/
structure ResourceRow where
  server_id : String
  uri : String
  name : String
  description : Option String
  mime_type : Option String

/-- A row of the `mcp_prompts` table. -/
structure PromptRow where
  server_id : String
  name : String
  description : Option String
  arguments : Option (List Json)

/-- The SQLite store of MCP data: the four tables created by
`_init_database`, each in rowid (insertion) order. -/
structure Store where
  mcp_servers : List ServerRow
  mcp_tools : List ToolRow
  mcp_resources : List ResourceRow
  mcp_prompts : List PromptRow

/-- The empty store (right after `_init_database`). -/
def Store.empty : Store := ⟨[], [], [], []⟩

/-- An `AgentDatabase` instance (`database.py`).

* `memoryMode` is true when `db_path == ':memory:'`: the instance then keeps
  one persistent `sqlite3` connection that every call reuses
  (`_get_connection`); otherwise every call opens a fresh connection.
* `foreignKeysEnabled` models SQLite's per-connection `foreign_keys` pragma.
  CPython's `sqlite3` leaves it OFF by default and the source never enables
  it, so `AgentDatabase.init` sets it to `false`; it is kept as a field to
  make the dependence of `delete_mcp_server` on it explicit.
* `totalChanges` is the persistent connection's cumulative
  `sqlite3.Connection.total_changes` counter (only meaningful in memory
  mode; a fresh per-call connection starts its own counter at 0). -/
structure AgentDatabase where
  memoryMode : Bool
  foreignKeysEnabled : Bool
  totalChanges : Nat
  store : Store

/-- Embeds `AgentDatabase.__init__`: `_init_database` creates the tables (DDL does
not bump `total_changes`) and no `PRAGMA foreign_keys` is ever issued. -/
def AgentDatabase.init (memoryMode : Bool) : AgentDatabase :=
  { memoryMode := memoryMode
    foreignKeysEnabled := false
    totalChanges := 0
    store := Store.empty }

/-- The `mcp_tools` row written by `insert_mcp_server` for one tool:
`json.dumps(tool.get('inputSchema')) if tool.get('inputSchema') else None`,
so a falsy `inputSchema` (absent, `None` or `{}`) is stored as NULL. -/
def toolToRow (server_id : String) (t : ToolCap) : ToolRow :=
  { server_id := server_id
    name := t.name
    description := t.description
    input_schema :=
      match t.inputSchema with
      | some j => if j.truthy then some j else none
      | none => none }

/-- The `mcp_resources` row written by `insert_mcp_server` for one resource. -/
def resourceToRow (server_id : String) (r : ResourceCap) : ResourceRow :=
  { server_id := server_id
    uri := r.uri
    name := r.name
    description := r.description
    mime_type := r.mimeType }

/-- The `mcp_prompts` row written by `insert_mcp_server` for one prompt:
`json.dumps(prompt.get('arguments')) if prompt.get('arguments') else None`,
so falsy `arguments` (absent, `None` or `[]`) are stored as NULL. -/
def promptToRow (server_id : String) (p : PromptCap) : PromptRow :=
  { server_id := server_id
    name := p.name
    description := p.description
    arguments :=
      match p.arguments with
      | some args => if args.isEmpty then none else some args
      | none => none }

/-- Embeds `AgentDatabase.insert_mcp_server` (database.py:281-322): inserts the
server row (status `'active'`, `created_at = last_verified = now`) and one
row per capability, in one transaction. A duplicate id violates the
`mcp_servers` PRIMARY KEY and raises `IntegrityError`, modelled as
`.error ()`. All inserted rows count toward `total_changes` on the
connection used (relevant for the persistent memory-mode connection). -/
def AgentDatabase.insert_mcp_server (db : AgentDatabase) (server_id : String)
    (server_type : String) (description : Option String) (config : Json)
    (now : String) (capabilities : Capabilities) :
    Except Unit AgentDatabase :=
  if db.store.mcp_servers.any (fun s => s.id == server_id) then
    .error ()
  else
    let newServer : ServerRow :=
      { id := server_id, type := server_type, description := description
        config := config, created_at := now, last_verified := some now
        status := "active" }
    let newTools := capabilities.tools.map (toolToRow server_id)
    let newResources := capabilities.resources.map (resourceToRow server_id)
    let newPrompts := capabilities.prompts.map (promptToRow server_id)
    let changes := 1 + newTools.length + newResources.length + newPrompts.length
    .ok
      { db with
        store :=
          { mcp_servers := db.store.mcp_servers ++ [newServer]
            mcp_tools := db.store.mcp_tools ++ newTools
            mcp_resources := db.store.mcp_resources ++ newResources
            mcp_prompts := db.store.mcp_prompts ++ newPrompts }
        totalChanges :=
          if db.memoryMode then db.totalChanges + changes else db.totalChanges }

/-- The joined record returned by `get_mcp_server`. -/
structure ServerRecord where
  id : String
  type : String
  description : Option String
  config : Json
  created_at : String
  last_verified : Option String
  status : String
  capabilities : Capabilities

/-- How `get_mcp_server` reads a tool row back
(`json.loads(t['input_schema']) if t['input_schema'] else None`). -/
def rowToToolCap (r : ToolRow) : ToolCap :=
  { name := r.name, description := r.description, inputSchema := r.input_schema }

/-- How `get_mcp_server` reads a resource row back. -/
def rowToResourceCap (r : ResourceRow) : ResourceCap :=
  { uri := r.uri, name := r.name, description := r.description
    mimeType := r.mime_type }

/-- How `get_mcp_server` reads a prompt row back. -/
def rowToPromptCap (r : PromptRow) : PromptCap :=
  { name := r.name, description := r.description, arguments := r.arguments }

/-- Embeds `AgentDatabase.get_mcp_server` (database.py:324-369): the server row (if
any) joined with all capability rows whose `server_id` matches, in stored
order. -/
def AgentDatabase.get_mcp_server (db : AgentDatabase) (server_id : String) :
    Option ServerRecord :=
  match db.store.mcp_servers.find? (fun s => s.id == server_id) with
  | none => none
  | some row =>
    some
      { id := row.id, type := row.type, description := row.description
        config := row.config, created_at := row.created_at
        last_verified := row.last_verified, status := row.status
        capabilities :=
          { tools :=
              (db.store.mcp_tools.filter
                (fun t => t.server_id == server_id)).map rowToToolCap
            resources :=
              (db.store.mcp_resources.filter
                (fun r => r.server_id == server_id)).map rowToResourceCap
            prompts :=
              (db.store.mcp_prompts.filter
                (fun p => p.server_id == server_id)).map rowToPromptCap } }

/-- Embeds `AgentDatabase.delete_mcp_server` (database.py:534-539): runs
`DELETE FROM mcp_servers WHERE id = ?`, commits, and returns
`conn.total_changes > 0`.

* The capability tables are touched only if the connection enforces foreign
  keys (the declared `ON DELETE CASCADE`); with the source's connections
  that flag is off, so orphan capability rows survive.
* `total_changes` is cumulative per connection: on the persistent
  memory-mode connection the returned flag also counts every earlier write,
  while a file-backed call sees a fresh connection whose counter holds only
  this statement's deletions. -/
def AgentDatabase.delete_mcp_server (db : AgentDatabase) (server_id : String) :
    AgentDatabase × Bool :=
  let deletedServers :=
    (db.store.mcp_servers.filter (fun s => s.id == server_id)).length
  let cascaded :=
    if db.foreignKeysEnabled then
      (db.store.mcp_tools.filter (fun t => t.server_id == server_id)).length +
      (db.store.mcp_resources.filter (fun r => r.server_id == server_id)).length +
      (db.store.mcp_prompts.filter (fun p => p.server_id == server_id)).length
    else 0
  let changes := deletedServers + cascaded
  let store' : Store :=
    { mcp_servers := db.store.mcp_servers.filter (fun s => !(s.id == server_id))
      mcp_tools :=
        if db.foreignKeysEnabled then
          db.store.mcp_tools.filter (fun t => !(t.server_id == server_id))
        else db.store.mcp_tools
      mcp_resources :=
        if db.foreignKeysEnabled then
          db.store.mcp_resources.filter (fun r => !(r.server_id == server_id))
        else db.store.mcp_resources
      mcp_prompts :=
        if db.foreignKeysEnabled then
          db.store.mcp_prompts.filter (fun p => !(p.server_id == server_id))
        else db.store.mcp_prompts }
  let connChanges :=
    if db.memoryMode then db.totalChanges + changes else changes
  ({ db with
      store := store'
      totalChanges :=
        if db.memoryMode then db.totalChanges + changes else db.totalChanges },
    connChanges > 0)

/-- Embeds `AgentDatabase.update_mcp_server_status` (database.py:541-552): sets
`status` and `last_verified` on the matching server row and returns
`conn.total_changes > 0` (same cumulative-counter semantics as delete).
The caller-side default `last_verified = now` is resolved by the caller
here, so the timestamp is an explicit argument. -/
def AgentDatabase.update_mcp_server_status (db : AgentDatabase)
    (server_id : String) (status : String) (last_verified : String) :
    AgentDatabase × Bool :=
  let matched :=
    (db.store.mcp_servers.filter (fun s => s.id == server_id)).length
  let servers' := db.store.mcp_servers.map (fun s =>
    if s.id == server_id then
      { s with status := status, last_verified := some last_verified }
    else s)
  let connChanges :=
    if db.memoryMode then db.totalChanges + matched else matched
  ({ db with
      store := { db.store with mcp_servers := servers' }
      totalChanges :=
        if db.memoryMode then db.totalChanges + matched else db.totalChanges },
    connChanges > 0)

/-! ## Connection manager (`mcp_connection_manager.py`) -/

/-- A pooled connection (`MCPConnection`). `session` is the session's
identity. `session_context` / `client_context` hold the two scoped
context-manager handles kept by `_create_stdio_connection` /
`_create_http_connection` (the constructor default for both is `None`,
hence the `Option`); both creators always pass them. -/
structure MCPConnection where
  server_id : String
  session : Nat
  session_context : Option Nat
  client_context : Option Nat

/-- The manager's in-memory pool: the `connections` dict, as an
insertion-ordered association list (Python dicts preserve insertion order;
`id` keys are unique). -/
structure ManagerState where
  connections : List (String × MCPConnection)

/-- Dict lookup `self.connections[server_id]`. -/
def ManagerState.lookup (st : ManagerState) (server_id : String) :
    Option MCPConnection :=
  (st.connections.find? (fun p => p.1 == server_id)).map Prod.snd

/-- A teardown action observed while closing a connection. -/
inductive TeardownEvent where
  | closeSession (server_id : String)
  | closeTransport (server_id : String)
deriving DecidableEq, Repr

/-- Embeds `MCPConnectionManager._close_connection` (lines 265-291): if the id has
no pool entry, return immediately; otherwise exit the session context, then
the client (transport) context, and finally delete the pool entry. The
returned trace lists the teardown calls in program order. -/
def ManagerState.close_connection (st : ManagerState) (server_id : String) :
    ManagerState × List TeardownEvent :=
  match st.lookup server_id with
  | none => (st, [])
  | some conn =>
    let sessionEvents :=
      match conn.session_context with
      | some _ => [TeardownEvent.closeSession server_id]
      | none => []
    let transportEvents :=
      match conn.client_context with
      | some _ => [TeardownEvent.closeTransport server_id]
      | none => []
    ({ connections :=
        st.connections.filter (fun p => !(p.1 == server_id)) },
      sessionEvents ++ transportEvents)

/-- Errors raised by the manager: Python `ValueError` (unknown server) and
`ConnectionError` (acquisition failure). -/
inductive ManagerError where
  | valueError (msg : String)
  | connectionError (msg : String)
deriving DecidableEq, Repr

/-- Outcome of the nested transport-plus-session open performed by
`_create_stdio_connection` / `_create_http_connection` (the
`stdio_client`/`streamablehttp_client` enter, the `ClientSession` enter and
the MCP handshake): either a live session identity or the text of the
raised exception. -/
inductive OpenOutcome where
  | ok (session : Nat)
  | fail (msg : String)
deriving DecidableEq, Repr

/-- Embeds `MCPConnectionManager._create_connection` (lines 177-200).
The repository lookup failing raises `ValueError` before the `try` block;
inside the `try`, an unsupported type raises `ValueError` and any open
failure propagates, both wrapped into `ConnectionError`. Only after a fully
successful open is the pool entry `self.connections[server_id] = conn`
written. -/
def ManagerState.create_connection (st : ManagerState) (db : AgentDatabase)
    (server_id : String) (outcome : OpenOutcome) :
    ManagerState × Except ManagerError MCPConnection :=
  match db.get_mcp_server server_id with
  | none => (st, .error (.valueError ("Server not found: " ++ server_id)))
  | some server =>
    if server.type == "stdio" || server.type == "http" || server.type == "sse" then
      match outcome with
      | .ok s =>
        let conn : MCPConnection :=
          { server_id := server_id, session := s
            session_context := some s, client_context := some s }
        ({ connections := st.connections ++ [(server_id, conn)] }, .ok conn)
      | .fail msg =>
        (st, .error (.connectionError ("Failed to connect to server: " ++ msg)))
    else
      (st, .error (.connectionError
        ("Failed to connect to server: Unsupported server type: " ++ server.type)))

/-! ## Registry endpoints (`main.py`) -/

/-- The application state the MCP registry endpoints act on: the shared
`AgentDatabase` and the connection manager's pool. -/
structure AppState where
  db : AgentDatabase
  pool : ManagerState

/-- Embeds `DELETE /mcp/servers/{server_id}` (main.py:337-345): calls
`db.delete_mcp_server` and maps its boolean to 204 / 404. Nothing else
happens: the handler never consults the connection manager, so the pool is
returned untouched. -/
def delete_mcp_server_endpoint (st : AppState) (server_id : String) :
    AppState × Nat :=
  let (db', success) := st.db.delete_mcp_server server_id
  ({ st with db := db' }, if success then 204 else 404)

/-- Result of `POST /mcp/servers/{server_id}/verify`. -/
inductive VerifyResult where
  | notFound
  | verified (capabilities : Capabilities)
  | unavailable

/-- Embeds `POST /mcp/servers/{server_id}/verify` (main.py:348-381): look the
server up (404 if absent), rediscover its capabilities, and on success call
`update_mcp_server_status(server_id, 'active')` — which writes only
`status` and `last_verified`; the rediscovered triple is returned in the
response body but never written to the capability tables. On discovery
failure the status is set to `'error'` and the endpoint answers 503. -/
def verify_mcp_server_endpoint (db : AgentDatabase) (server_id : String)
    (discovery : Except String Capabilities) (now : String) :
    AgentDatabase × VerifyResult :=
  match db.get_mcp_server server_id with
  | none => (db, .notFound)
  | some _ =>
    match discovery with
    | .ok caps =>
      ((db.update_mcp_server_status server_id "active" now).1, .verified caps)
    | .error _ =>
      ((db.update_mcp_server_status server_id "error" now).1, .unavailable)

/-! ## Capability search (`database.py:392-532`)

The `'tool'` branch of `search_mcp_capabilities` filters servers with a SQL
`LIKE '%' || query || '%'` (case-insensitive on ASCII, with `%`/`_` acting
as wildcards) and then filters the matched tools in Python with
`query.lower() in text.lower()` (plain substring). Both matchers are
embedded below. -/

/-- ASCII lowering: what SQLite's `LIKE` applies to both operands, and what
Python's `str.lower` computes on ASCII data. -/
def lowerChar (c : Char) : Char :=
  if 'A' ≤ c ∧ c ≤ 'Z' then Char.ofNat (c.toNat + 32) else c

/-- ASCII lowering of a string. -/
def lowerStr (s : String) : String := ⟨s.data.map lowerChar⟩

/-- SQLite `LIKE` pattern matching (first argument the pattern, second the
text): `%` matches any run of characters (some suffix of the text must
match the rest of the pattern), `_` matches any single character, and any
other character matches itself up to ASCII case. -/
def likeChars : List Char → List Char → Bool
  | [], ts => ts.isEmpty
  | p :: ps, ts =>
    if p = '%' then
      ts.tails.any (fun ts' => likeChars ps ts')
    else
      match ts with
      | [] => false
      | t :: ts' =>
        (if p = '_' then true else lowerChar p == lowerChar t) &&
          likeChars ps ts'

/-- Evaluates `text LIKE pattern` on strings. -/
def sqlLike (pattern text : String) : Bool :=
  likeChars pattern.data text.data

/-- Tests whether `qs` starts `ts` (character-exact). -/
def prefixAt : List Char → List Char → Bool
  | [], _ => true
  | _ :: _, [] => false
  | q :: qs, t :: ts => q == t && prefixAt qs ts

/-- Tests whether `qs` occurs as a contiguous run inside `ts` (character-exact). -/
def occursIn : List Char → List Char → Bool
  | qs, [] => qs.isEmpty
  | qs, t :: ts => prefixAt qs (t :: ts) || occursIn qs ts

/-- Case-insensitive substring test: Python's
`q.lower() in s.lower()` on ASCII data. -/
def containsCI (q s : String) : Bool :=
  occursIn (lowerStr q).data (lowerStr s).data

/-- The SQL tool filter of the search query:
`t.name LIKE '%q%' OR t.description LIKE '%q%'` (a NULL description makes
the second disjunct NULL, i.e. not a match). -/
def toolRowLikesQuery (q : String) (r : ToolRow) : Bool :=
  sqlLike ("%" ++ q ++ "%") r.name ||
    (match r.description with
     | some d => sqlLike ("%" ++ q ++ "%") d
     | none => false)

/-- The Python re-filter applied to a returned tool capability:
`query.lower() in (name or '').lower() or query.lower() in
(description or '').lower()`. -/
def toolCapContainsQuery (q : String) (t : ToolCap) : Bool :=
  containsCI q t.name || containsCI q (t.description.getD "")

/-- One entry of the search result (`MCPSearchResult`). -/
structure SearchEntry where
  server_id : String
  server_type : String
  server_description : Option String
  server_config : Json
  matched_tools : List ToolCap
  matched_resources : List ResourceCap
  matched_prompts : List PromptCap

/-- Whether the SQL join finds, for server `s`, at least one tool row
matching the (optional) query. -/
def serverHasLikedTool (db : AgentDatabase) (query : Option String)
    (s : ServerRow) : Bool :=
  db.store.mcp_tools.any (fun r =>
    r.server_id == s.id &&
      (match query with
       | none => true
       | some q => toolRowLikesQuery q r))

/-- Embeds `search_mcp_capabilities` with `capability_type = 'tool'`
(database.py:407-443 plus the final `results[:limit]`): the SQL query
selects the distinct ids of `active` servers (optionally filtered by
`server_type`) having a `LIKE`-matching tool row, capped by `LIMIT ?`; each
id is looked up again via `get_mcp_server` and its tools re-filtered in
Python; `matched_resources`/`matched_prompts` stay empty and the result
list is finally truncated to `limit`. Server ids are a PRIMARY KEY, so the
`DISTINCT` id list is modelled as a filter of the server table in stored
order. -/
def search_mcp_capabilities_tool (db : AgentDatabase) (query : Option String)
    (server_type : Option String) (limit : Nat) : List SearchEntry :=
  (((db.store.mcp_servers.filter (fun s =>
    s.status == "active" &&
      (match server_type with
       | none => true
       | some ty => s.type == ty) &&
      serverHasLikedTool db query s)).take limit).filterMap (fun s =>
    match db.get_mcp_server s.id with
    | none => none
    | some record =>
      some
        { server_id := record.id
          server_type := record.type
          server_description := record.description
          server_config := record.config
          matched_tools :=
            match query with
            | none => record.capabilities.tools
            | some q =>
              record.capabilities.tools.filter (toolCapContainsQuery q)
          matched_resources := []
          matched_prompts := [] })).take limit

/-! ## Discovery client (`mcp_client.py`) -/

/-- Embeds `MCPClient._discover_stdio_capabilities` / `_discover_http_capabilities`
(lines 53-143 and 145-225), given the outcomes of its downstream calls:
`connect` bundles the transport open, the session open and the MCP
handshake (each raising into the surrounding `except`, which wraps the
message into `MCPClientError`); the three list calls are each guarded by
their own `try/except Exception: pass`, so a failing kind leaves its
accumulator at the initial `[]` and the call carries on. -/
def discover_capabilities (connect : Except String Unit)
    (toolsResult : Except String (List ToolCap))
    (resourcesResult : Except String (List ResourceCap))
    (promptsResult : Except String (List PromptCap)) :
    Except String Capabilities :=
  match connect with
  | .error e => .error ("Failed to connect to stdio server: " ++ e)
  | .ok () =>
    let tools := match toolsResult with | .ok ts => ts | .error _ => []
    let resources := match resourcesResult with | .ok rs => rs | .error _ => []
    let prompts := match promptsResult with | .ok ps => ps | .error _ => []
    .ok { tools := tools, resources := resources, prompts := prompts }

/-! ## Gateway JSON-RPC dispatch (`mcp_gateway_routes.py:76-173`) -/

/-- A JSON-RPC request id: `Optional[Union[str, int]]` in
`JSONRPCRequest`. -/
abbrev RpcId := Option (String ⊕ Int)

/-- The parameters the proxy reads out of `message.params`. -/
structure RpcParams where
  name : Option String
  uri : Option String
  arguments : Option Json

/-- A `JSONRPCRequest` as received by the gateway. -/
structure RpcRequest where
  jsonrpc : String
  id : RpcId
  method : String
  params : Option RpcParams

/-- A `JSONRPCError` payload. -/
structure RpcError where
  code : Int
  message : String

/-- A `JSONRPCResponse`. -/
structure RpcResponse where
  jsonrpc : String
  id : RpcId
  result : Option Json
  error : Option RpcError

/-- The six session operations, as an oracle giving each call's result:
what `conn.session` would answer. `call_tool` returns the content list and
the `isError` flag. -/
structure SessionOracle where
  list_tools : Json
  list_resources : Json
  list_prompts : Json
  call_tool : String → Json → Json × Bool
  read_resource : String → Json
  get_prompt : String → Json → Json

/-- A successful response carrying `result`, with the request's id. -/
def rpcOk (id : RpcId) (result : Json) : RpcResponse :=
  { jsonrpc := "2.0", id := id, result := some result, error := none }

/-- An error response carrying `code`/`message`, with the request's id. -/
def rpcErr (id : RpcId) (code : Int) (message : String) : RpcResponse :=
  { jsonrpc := "2.0", id := id, result := none
    error := some { code := code, message := message } }

/-- Embeds `gateway_message_proxy` (mcp_gateway_routes.py:76-173), after the pool
has resolved `server_id` to a live connection: dispatch on
`message.method`. `params.get(...)` on a missing `params` reads from the
empty dict; `if not tool_name` / `if not name` / `if not uri` treat both a
missing and an empty-string parameter as absent (-32602); any unknown
method answers -32601. Every branch copies `message.id` into the
response. -/
def gateway_message_proxy_dispatch (message : RpcRequest)
    (session : SessionOracle) : RpcResponse :=
  let params := message.params.getD { name := none, uri := none, arguments := none }
  if message.method == "tools/list" then
    rpcOk message.id (.obj [("tools", session.list_tools)])
  else if message.method == "resources/list" then
    rpcOk message.id (.obj [("resources", session.list_resources)])
  else if message.method == "prompts/list" then
    rpcOk message.id (.obj [("prompts", session.list_prompts)])
  else if message.method == "tools/call" then
    if params.name.getD "" == "" then
      rpcErr message.id (-32602) "Missing required parameter: name"
    else
      let r := session.call_tool (params.name.getD "")
        (params.arguments.getD (.obj []))
      rpcOk message.id
        (.obj [("content", r.1), ("isError", .bool r.2)])
  else if message.method == "resources/read" then
    if params.uri.getD "" == "" then
      rpcErr message.id (-32602) "Missing required parameter: uri"
    else
      rpcOk message.id
        (.obj [("contents", session.read_resource (params.uri.getD ""))])
  else if message.method == "prompts/get" then
    if params.name.getD "" == "" then
      rpcErr message.id (-32602) "Missing required parameter: name"
    else
      rpcOk message.id
        (.obj [("messages",
          session.get_prompt (params.name.getD "")
            (params.arguments.getD (.obj [])))])
  else
    rpcErr message.id (-32601) ("Method not found: " ++ message.method)

/-- The six methods `gateway_message_proxy` dispatches to. -/
def supportedMethods : List String :=
  ["tools/list", "resources/list", "prompts/list",
   "tools/call", "resources/read", "prompts/get"]

/-! ## Single-flight acquisition (`MCPConnectionManager.get_connection`)

Here `get_connection` (lines 140-175) is run, for one `server_id`, by several asyncio
tasks against a cold pool. asyncio is cooperative: code between `await`
points runs atomically. The relevant suspension points are the per-key
`async with lock` acquisition and the transport/session open inside
`_create_connection`; everything else on the path (the two dict checks,
`_get_lock`, the repository read, the dict insert) is synchronous. The model
below therefore gives each task four atomic steps and lets a scheduler
interleave them arbitrarily; opens are assumed to succeed, each open
returning a fresh session identity (the count of opens so far). -/

/-- The program counter of one task running `get_connection`:

* `start`: about to run the first `server_id in self.connections` check;
* `waitLock`: suspended at `async with lock`;
* `opening s`: holds the lock, passed the double-check, transport open in
  flight (the open that will produce session `s`);
* `done s`: returned connection with session identity `s`. -/
inductive TaskPC where
  | start
  | waitLock
  | opening (s : Nat)
  | done (s : Nat)
deriving DecidableEq, Repr

/-- The shared state of the single-flight scenario: the pool entry for the
contended id, the per-key lock, the number of transport opens executed so
far, and each task's program counter. -/
structure FlightState where
  pool : Option Nat
  lockHeld : Bool
  opens : Nat
  tasks : List TaskPC
deriving DecidableEq, Repr

/-- The cold-pool initial state with `n` concurrent callers. -/
def FlightState.init (n : Nat) : FlightState :=
  { pool := none, lockHeld := false, opens := 0
    tasks := List.replicate n TaskPC.start }

/-- One atomic step of one task of `get_connection`:

* `hit`: first check finds a (healthy) pooled connection and returns it;
* `miss`: first check finds nothing; the task moves to the lock;
* `acquireHit`: the lock is free; the task takes it, the double-check finds
  a connection, the task returns it (releasing the lock);
* `acquireMiss`: the lock is free and the double-check still finds nothing;
  the task starts `_create_connection`, whose transport open is executed
  now (bumping `opens`);
* `finishOpen`: the in-flight open completes; `_create_connection` inserts
  the connection into the pool, the task returns it and the lock is
  released. -/
inductive FlightStep : FlightState → FlightState → Prop where
  | hit (st : FlightState) (i : Nat) (s : Nat)
      (hpc : st.tasks.get? i = some .start) (hpool : st.pool = some s) :
      FlightStep st { st with tasks := st.tasks.set i (.done s) }
  | miss (st : FlightState) (i : Nat)
      (hpc : st.tasks.get? i = some .start) (hpool : st.pool = none) :
      FlightStep st { st with tasks := st.tasks.set i .waitLock }
  | acquireHit (st : FlightState) (i : Nat) (s : Nat)
      (hpc : st.tasks.get? i = some .waitLock) (hlock : st.lockHeld = false)
      (hpool : st.pool = some s) :
      FlightStep st { st with tasks := st.tasks.set i (.done s) }
  | acquireMiss (st : FlightState) (i : Nat)
      (hpc : st.tasks.get? i = some .waitLock) (hlock : st.lockHeld = false)
      (hpool : st.pool = none) :
      FlightStep st
        { pool := none, lockHeld := true, opens := st.opens + 1
          tasks := st.tasks.set i (.opening (st.opens + 1)) }
  | finishOpen (st : FlightState) (i : Nat) (s : Nat)
      (hpc : st.tasks.get? i = some (.opening s)) :
      FlightStep st
        { pool := some s, lockHeld := false, opens := st.opens
          tasks := st.tasks.set i (.done s) }

/-- All interleavings: the reflexive-transitive closure of `FlightStep`. -/
abbrev FlightReachable (st st' : FlightState) : Prop :=
  Relation.ReflTransGen FlightStep st st'

/-! ## Concrete fixtures used by witnesses and counterexamples -/

/-- A stdio config blob, as produced by `MCPServerRegister.get_config`. -/
def cfg0 : Json :=
  .obj [("command", .str "echo-mcp"), ("args", .arr []), ("env", .obj [])]

/-- The `echo` tool of the spec's round-trip scenario. -/
def toolEcho : ToolCap :=
  { name := "echo", description := some "Echo", inputSchema := none }

/-- A capabilities triple advertising just the `echo` tool. -/
def capsEcho : Capabilities :=
  { tools := [toolEcho], resources := [], prompts := [] }

/-- A file-backed database holding one stdio server `s1` with the `echo`
tool, built by the embedded `insert_mcp_server` itself. -/
def dbEcho : AgentDatabase :=
  (((AgentDatabase.init false).insert_mcp_server "s1" "stdio" none cfg0 "T0"
      capsEcho).toOption).getD (AgentDatabase.init false)

/-- A live pooled connection for `s1`, as `_create_connection` would build
it: both scoped context handles are kept. -/
def connS1 : MCPConnection :=
  { server_id := "s1", session := 1
    session_context := some 1, client_context := some 1 }

/-- An oracle whose six session operations all answer `null` content. -/
def sessionOracle0 : SessionOracle :=
  { list_tools := .null, list_resources := .null, list_prompts := .null
    call_tool := fun _ _ => (Json.null, false)
    read_resource := fun _ => Json.null
    get_prompt := fun _ _ => Json.null }

/-! ## C4 — reverse-order teardown and idempotent close -/

/-- C4: for every connection created by the manager (both scoped context
handles present, as `_create_stdio_connection`/`_create_http_connection`
always arrange), `_close_connection` exits the session context strictly
before the client (transport) context and removes the pool entry, and a
second `_close_connection` on the same server id is a no-op: it changes
nothing and performs no teardown call. -/
theorem close_connection_session_before_transport_and_idempotent
    (st : ManagerState) (sid : String) (conn : MCPConnection)
    (hconn : st.lookup sid = some conn)
    (hs : conn.session_context.isSome = true)
    (hc : conn.client_context.isSome = true) :
    (st.close_connection sid).2
      = [TeardownEvent.closeSession sid, TeardownEvent.closeTransport sid]
    ∧ (st.close_connection sid).1.lookup sid = none
    ∧ (st.close_connection sid).1.close_connection sid
        = ((st.close_connection sid).1, []) := by
  obtain ⟨x, hx⟩ := Option.isSome_iff_exists.mp hs
  obtain ⟨y, hy⟩ := Option.isSome_iff_exists.mp hc
  have hout : st.close_connection sid =
      (ManagerState.mk (st.connections.filter (fun p => !(p.1 == sid))),
       [TeardownEvent.closeSession sid, TeardownEvent.closeTransport sid]) := by
    simp [ManagerState.close_connection, hconn, hx, hy]
  have hlook :
      (ManagerState.mk
        (st.connections.filter (fun p => !(p.1 == sid)))).lookup sid = none := by
    simp only [ManagerState.lookup, Option.map_eq_none']
    apply List.find?_eq_none.mpr
    intro p hp
    have := (List.mem_filter.mp hp).2
    simpa using this
  refine ⟨by rw [hout], by rw [hout]; exact hlook, ?_⟩
  rw [hout]
  simp [ManagerState.close_connection, hlook]

/-- C4 witness: closing the pooled `s1` connection tears the session down
first, then the transport, and closing again does nothing. -/
theorem close_connection_witness :
    ((ManagerState.mk [("s1", connS1)]).close_connection "s1").2
      = [TeardownEvent.closeSession "s1", TeardownEvent.closeTransport "s1"]
    ∧ ((ManagerState.mk [("s1", connS1)]).close_connection "s1").1.lookup "s1"
        = none
    ∧ ((ManagerState.mk [("s1", connS1)]).close_connection "s1").1.close_connection
        "s1"
        = (((ManagerState.mk [("s1", connS1)]).close_connection "s1").1, []) :=
  close_connection_session_before_transport_and_idempotent
    (ManagerState.mk [("s1", connS1)]) "s1" connS1 rfl rfl rfl

/-! ## C5 — failed open leaves the pool unchanged -/

/-- C5: when the server record exists with a supported transport type and
the nested transport/session open fails, `_create_connection` raises
`ConnectionError` and the pool map is returned exactly as it was: no entry
is inserted and no existing entry is modified. -/
theorem create_connection_failure_pool_unchanged (st : ManagerState)
    (db : AgentDatabase) (sid msg : String) (server : ServerRecord)
    (hserver : db.get_mcp_server sid = some server)
    (htype : server.type = "stdio" ∨ server.type = "http" ∨ server.type = "sse") :
    st.create_connection db sid (.fail msg)
      = (st, .error (.connectionError ("Failed to connect to server: " ++ msg))) := by
  have hty : (server.type == "stdio" || server.type == "http"
      || server.type == "sse") = true := by
    rcases htype with h | h | h <;> simp [h]
  simp [ManagerState.create_connection, hserver, hty]

/-- C5 witness: against the one-server fixture database, a failing open for
`s1` yields `ConnectionError` and leaves an empty pool empty. -/
theorem create_connection_failure_witness :
    (ManagerState.mk []).create_connection dbEcho "s1" (.fail "boom")
      = (ManagerState.mk [],
         .error (.connectionError ("Failed to connect to server: " ++ "boom"))) :=
  create_connection_failure_pool_unchanged (ManagerState.mk []) dbEcho "s1" "boom"
    { id := "s1", type := "stdio", description := none, config := cfg0
      created_at := "T0", last_verified := some "T0", status := "active"
      capabilities := { tools := [toolEcho], resources := [], prompts := [] } }
    rfl (Or.inl rfl)

/-! ## C6 — best-effort discovery -/

/-- C6: once the transport, session and handshake have succeeded, a failure
of exactly one of the three list operations leaves that kind empty without
failing the call: discovery still succeeds and returns the kinds that
succeeded. -/
theorem discovery_best_effort (e : String) (ts : List ToolCap)
    (rs : List ResourceCap) (ps : List PromptCap) :
    discover_capabilities (.ok ()) (.error e) (.ok rs) (.ok ps)
      = .ok { tools := [], resources := rs, prompts := ps }
    ∧ discover_capabilities (.ok ()) (.ok ts) (.error e) (.ok ps)
      = .ok { tools := ts, resources := [], prompts := ps }
    ∧ discover_capabilities (.ok ()) (.ok ts) (.ok rs) (.error e)
      = .ok { tools := ts, resources := rs, prompts := [] } :=
  ⟨rfl, rfl, rfl⟩

/-! ## C8 — gateway JSON-RPC error surface -/

/-- C8: for a request whose server id resolved to a session, an unknown
method yields a JSON-RPC error `-32601` carrying the request's id verbatim;
`tools/call` or `prompts/get` without a `name` parameter, and
`resources/read` without a `uri` parameter, yield `-32602` with the same
id. -/
theorem gateway_dispatch_error_codes (message : RpcRequest)
    (session : SessionOracle) :
    (message.method ∉ supportedMethods →
      gateway_message_proxy_dispatch message session
        = rpcErr message.id (-32601) ("Method not found: " ++ message.method))
    ∧ (message.method = "tools/call" →
        (message.params.getD { name := none, uri := none, arguments := none }).name
          = none →
        gateway_message_proxy_dispatch message session
          = rpcErr message.id (-32602) "Missing required parameter: name")
    ∧ (message.method = "prompts/get" →
        (message.params.getD { name := none, uri := none, arguments := none }).name
          = none →
        gateway_message_proxy_dispatch message session
          = rpcErr message.id (-32602) "Missing required parameter: name")
    ∧ (message.method = "resources/read" →
        (message.params.getD { name := none, uri := none, arguments := none }).uri
          = none →
        gateway_message_proxy_dispatch message session
          = rpcErr message.id (-32602) "Missing required parameter: uri") := by
  refine ⟨?_, ?_, ?_, ?_⟩
  · intro hm
    simp only [supportedMethods, List.mem_cons, List.not_mem_nil, or_false,
      not_or] at hm
    obtain ⟨h1, h2, h3, h4, h5, h6⟩ := hm
    simp [gateway_message_proxy_dispatch, h1, h2, h3, h4, h5, h6]
  · intro hm hname
    simp [gateway_message_proxy_dispatch, hm, hname]
  · intro hm hname
    simp [gateway_message_proxy_dispatch, hm, hname]
  · intro hm huri
    simp [gateway_message_proxy_dispatch, hm, huri]

/-- C8 witness: the spec's scenario — method `bogus/method` with id 7 gets
`-32601` with id 7; `tools/call` with no params at all gets `-32602`. -/
theorem gateway_dispatch_error_codes_witness :
    gateway_message_proxy_dispatch
      { jsonrpc := "2.0", id := some (Sum.inr 7), method := "bogus/method"
        params := none } sessionOracle0
      = rpcErr (some (Sum.inr 7)) (-32601) ("Method not found: " ++ "bogus/method")
    ∧ gateway_message_proxy_dispatch
      { jsonrpc := "2.0", id := some (Sum.inr 8), method := "tools/call"
        params := none } sessionOracle0
      = rpcErr (some (Sum.inr 8)) (-32602) "Missing required parameter: name" := by
  constructor
  · exact (gateway_dispatch_error_codes _ sessionOracle0).1 (by decide)
  · exact (gateway_dispatch_error_codes _ sessionOracle0).2.1 rfl rfl

/-! ## C1 — cascade delete and session close on delete -/

/-- C1 (evaluation of the code at the failing input): on a registry holding
server `s1` with one tool row and a live pooled session for `s1`, the
delete endpoint answers 204, removes the server row — but the tool row for
`s1` survives (the `ON DELETE CASCADE` clause is inert because the
connection never enables foreign-key enforcement) and the pooled session is
still there, unclosed (the handler never touches the connection manager).
This refutes both halves of the cascade-delete invariant. -/
theorem delete_endpoint_leaves_capabilities_and_session :
    (delete_mcp_server_endpoint
      { db := dbEcho, pool := ManagerState.mk [("s1", connS1)] } "s1").2 = 204
    ∧ ((delete_mcp_server_endpoint
        { db := dbEcho, pool := ManagerState.mk [("s1", connS1)] } "s1").1.db.store.mcp_servers.map
          ServerRow.id) = []
    ∧ ((delete_mcp_server_endpoint
        { db := dbEcho, pool := ManagerState.mk [("s1", connS1)] } "s1").1.db.store.mcp_tools.map
          ToolRow.server_id) = ["s1"]
    ∧ (delete_mcp_server_endpoint
        { db := dbEcho, pool := ManagerState.mk [("s1", connS1)] } "s1").1.pool.lookup "s1"
      = some connS1 :=
  ⟨rfl, rfl, rfl, rfl⟩

/-! ## C2 — verify does not persist the rediscovered capabilities -/

/-- A tool named `alpha`, the one stored at registration time. -/
def toolAlpha : ToolCap := { name := "alpha", description := none, inputSchema := none }

/-- A tool named `beta`, the one found at verification time. -/
def toolBeta : ToolCap := { name := "beta", description := none, inputSchema := none }

/-- A database holding server `s1` whose stored capability triple contains
only the tool `alpha`. -/
def dbAlpha : AgentDatabase :=
  (((AgentDatabase.init false).insert_mcp_server "s1" "stdio" none cfg0 "T0"
      { tools := [toolAlpha], resources := [], prompts := [] }).toOption).getD
    (AgentDatabase.init false)

/-- The capabilities triple rediscovered during verification: only `beta`. -/
def capsBeta : Capabilities :=
  { tools := [toolBeta], resources := [], prompts := [] }

/-- C2 counterexample: a verify that succeeds and rediscovers the triple
`{beta}` reports that triple in its response — yet reading the server back
afterwards still returns the registration-time triple `{alpha}`. The
persisted triple is not replaced (wholesale or otherwise), refuting the
claim at this input. -/
theorem verify_does_not_replace_capabilities :
    (match (verify_mcp_server_endpoint dbAlpha "s1" (.ok capsBeta) "T1").2 with
     | .verified caps => caps.tools.map ToolCap.name
     | _ => []) = ["beta"]
    ∧ (((verify_mcp_server_endpoint dbAlpha "s1" (.ok capsBeta) "T1").1.get_mcp_server
        "s1").map (fun r => r.capabilities.tools.map ToolCap.name)) = some ["alpha"]
    ∧ (["alpha"] : List String) ≠ ["beta"] :=
  ⟨rfl, rfl, by decide⟩

/-- C2 (amended): a successful verify mutates only the server's `status`
(to `'active'`) and `last_verified`; the capability tables are returned
bit-for-bit unchanged, and the rediscovered triple appears only in the
response body. -/
theorem verify_updates_status_and_timestamp_only (db : AgentDatabase)
    (sid now : String) (caps : Capabilities)
    (hs : (db.get_mcp_server sid).isSome = true) :
    (verify_mcp_server_endpoint db sid (.ok caps) now).2 = .verified caps
    ∧ (verify_mcp_server_endpoint db sid (.ok caps) now).1.store.mcp_tools
        = db.store.mcp_tools
    ∧ (verify_mcp_server_endpoint db sid (.ok caps) now).1.store.mcp_resources
        = db.store.mcp_resources
    ∧ (verify_mcp_server_endpoint db sid (.ok caps) now).1.store.mcp_prompts
        = db.store.mcp_prompts
    ∧ ∀ s ∈ (verify_mcp_server_endpoint db sid (.ok caps) now).1.store.mcp_servers,
        s.id = sid → s.status = "active" ∧ s.last_verified = some now := by
  obtain ⟨rec, hrec⟩ := Option.isSome_iff_exists.mp hs
  have hout : verify_mcp_server_endpoint db sid (.ok caps) now
      = ((db.update_mcp_server_status sid "active" now).1, .verified caps) := by
    unfold verify_mcp_server_endpoint
    rw [hrec]
  rw [hout]
  refine ⟨rfl, rfl, rfl, rfl, ?_⟩
  intro s hsmem hsid
  simp only [AgentDatabase.update_mcp_server_status] at hsmem
  obtain ⟨r, hr, hfr⟩ := List.mem_map.mp hsmem
  by_cases h : (r.id == sid) = true
  · rw [if_pos h] at hfr
    rw [← hfr]
    exact ⟨rfl, rfl⟩
  · rw [if_neg h] at hfr
    rw [← hfr] at hsid
    exact absurd hsid (by simpa using h)

/-- C2 amended-claim witness: verifying `s1` against the `{beta}` discovery
succeeds and leaves the stored tool rows untouched. -/
theorem verify_updates_status_and_timestamp_only_witness :
    (verify_mcp_server_endpoint dbAlpha "s1" (.ok capsBeta) "T1").2
      = .verified capsBeta
    ∧ (verify_mcp_server_endpoint dbAlpha "s1" (.ok capsBeta) "T1").1.store.mcp_tools
        = dbAlpha.store.mcp_tools := by
  have h := verify_updates_status_and_timestamp_only dbAlpha "s1" "T1" capsBeta rfl
  exact ⟨h.1, h.2.1⟩

/-! ## C9 — registration round-trip -/

/-- A tool whose `inputSchema` is the empty JSON object — present, but
falsy for Python. -/
def toolEmptySchema : ToolCap :=
  { name := "t", description := none, inputSchema := some (.obj []) }

/-- A database holding server `s2` registered with `toolEmptySchema`. -/
def dbEmptySchema : AgentDatabase :=
  (((AgentDatabase.init false).insert_mcp_server "s2" "stdio" none cfg0 "T0"
      { tools := [toolEmptySchema], resources := [], prompts := [] }).toOption).getD
    (AgentDatabase.init false)

/-- C9 counterexample: a tool inserted with `inputSchema = {}` (present) is
read back with `inputSchema = None` — `insert_mcp_server` stores
`json.dumps(x) if x else None`, and `{}` is falsy — so the read-back triple
is not equal to the inserted one, refuting the claim at this input. -/
theorem insert_get_drops_falsy_input_schema :
    toolEmptySchema.inputSchema.isSome = true
    ∧ ((dbEmptySchema.get_mcp_server "s2").map
        (fun r => r.capabilities.tools.map (fun t => t.inputSchema.isSome)))
      = some [false] :=
  ⟨rfl, rfl⟩

/-- Reading back the `mcp_tools` row written for a tool returns the tool
itself, provided the tool's `inputSchema` is not present-but-falsy. -/
theorem rowToToolCap_toolToRow (sid : String) (t : ToolCap)
    (h : ∀ j, t.inputSchema = some j → j.truthy = true) :
    rowToToolCap (toolToRow sid t) = t := by
  obtain ⟨n, d, i⟩ := t
  cases i with
  | none => rfl
  | some j =>
    have := h j rfl
    simp [rowToToolCap, toolToRow, this]

/-- Reading back the `mcp_resources` row written for a resource returns the
resource itself. -/
theorem rowToResourceCap_resourceToRow (sid : String) (r : ResourceCap) :
    rowToResourceCap (resourceToRow sid r) = r := rfl

/-- Reading back the `mcp_prompts` row written for a prompt returns the
prompt itself, provided its `arguments` are not present-but-empty. -/
theorem rowToPromptCap_promptToRow (sid : String) (p : PromptCap)
    (h : ∀ a, p.arguments = some a → a.isEmpty = false) :
    rowToPromptCap (promptToRow sid p) = p := by
  obtain ⟨n, d, a⟩ := p
  cases a with
  | none => rfl
  | some args =>
    have := h args rfl
    simp [rowToPromptCap, promptToRow, this]

/-- C9 (amended): registering a fresh server id persists the accepted
capabilities triple exactly, and `get_mcp_server` returns it unchanged
(same elements, same order, same field values), provided no tool carries a
present-but-falsy `inputSchema` and no prompt carries a present-but-empty
`arguments` list (such values are read back as `None`, see the
counterexample). -/
theorem insert_get_roundtrip (db : AgentDatabase) (sid ty now : String)
    (descr : Option String) (cfg : Json) (caps : Capabilities)
    (hS : ∀ s ∈ db.store.mcp_servers, s.id ≠ sid)
    (hT : ∀ t ∈ db.store.mcp_tools, t.server_id ≠ sid)
    (hR : ∀ r ∈ db.store.mcp_resources, r.server_id ≠ sid)
    (hP : ∀ p ∈ db.store.mcp_prompts, p.server_id ≠ sid)
    (htools : ∀ t ∈ caps.tools, ∀ j, t.inputSchema = some j → j.truthy = true)
    (hprompts : ∀ p ∈ caps.prompts, ∀ a, p.arguments = some a → a.isEmpty = false) :
    (db.insert_mcp_server sid ty descr cfg now caps).map
        (fun db' => db'.get_mcp_server sid)
      = .ok (some
          { id := sid, type := ty, description := descr, config := cfg
            created_at := now, last_verified := some now, status := "active"
            capabilities := caps }) := by
  have hany : db.store.mcp_servers.any (fun s => s.id == sid) = false := by
    rw [List.any_eq_false]
    intro s hsmem
    simpa using hS s hsmem
  rw [AgentDatabase.insert_mcp_server]
  rw [hany]
  simp only [Bool.false_eq_true, if_false, Except.map]
  congr 1
  rw [AgentDatabase.get_mcp_server]
  have hfindOld :
      db.store.mcp_servers.find? (fun s => s.id == sid) = none := by
    apply List.find?_eq_none.mpr
    intro s hsmem
    simpa using hS s hsmem
  rw [List.find?_append, hfindOld, Option.none_or]
  simp only [List.find?_cons, beq_self_eq_true]
  congr 1
  have htoolsF :
      (db.store.mcp_tools ++ caps.tools.map (toolToRow sid)).filter
          (fun t => t.server_id == sid)
        = caps.tools.map (toolToRow sid) := by
    rw [List.filter_append]
    rw [List.filter_eq_nil_iff.mpr (fun t ht => by simpa using hT t ht)]
    rw [List.filter_eq_self.mpr (fun t ht => ?_), List.nil_append]
    obtain ⟨t0, _, hteq⟩ := List.mem_map.mp ht
    rw [← hteq]
    simp [toolToRow]
  have hresF :
      (db.store.mcp_resources ++ caps.resources.map (resourceToRow sid)).filter
          (fun r => r.server_id == sid)
        = caps.resources.map (resourceToRow sid) := by
    rw [List.filter_append]
    rw [List.filter_eq_nil_iff.mpr (fun r hr => by simpa using hR r hr)]
    rw [List.filter_eq_self.mpr (fun r hr => ?_), List.nil_append]
    obtain ⟨r0, _, hreq⟩ := List.mem_map.mp hr
    rw [← hreq]
    simp [resourceToRow]
  have hprF :
      (db.store.mcp_prompts ++ caps.prompts.map (promptToRow sid)).filter
          (fun p => p.server_id == sid)
        = caps.prompts.map (promptToRow sid) := by
    rw [List.filter_append]
    rw [List.filter_eq_nil_iff.mpr (fun p hp => by simpa using hP p hp)]
    rw [List.filter_eq_self.mpr (fun p hp => ?_), List.nil_append]
    obtain ⟨p0, _, hpeq⟩ := List.mem_map.mp hp
    rw [← hpeq]
    simp [promptToRow]
  rw [htoolsF, hresF, hprF, List.map_map, List.map_map, List.map_map]
  have e1 : caps.tools.map (rowToToolCap ∘ toolToRow sid) = caps.tools := by
    rw [show caps.tools = caps.tools.map id from (List.map_id _).symm]
    rw [List.map_map]
    apply List.map_congr_left
    intro t ht
    simp only [Function.comp, id]
    exact rowToToolCap_toolToRow sid t (htools t (by simpa using ht))
  have e2 : caps.resources.map (rowToResourceCap ∘ resourceToRow sid)
      = caps.resources := by
    rw [show caps.resources = caps.resources.map id from (List.map_id _).symm]
    rw [List.map_map]
    apply List.map_congr_left
    intro r hr
    exact rowToResourceCap_resourceToRow sid r
  have e3 : caps.prompts.map (rowToPromptCap ∘ promptToRow sid) = caps.prompts := by
    rw [show caps.prompts = caps.prompts.map id from (List.map_id _).symm]
    rw [List.map_map]
    apply List.map_congr_left
    intro p hp
    simp only [Function.comp, id]
    exact rowToPromptCap_promptToRow sid p (hprompts p (by simpa using hp))
  rw [e1, e2, e3]

/-- C9 amended-claim witness: registering `s1` with the `echo` triple on an
empty store and reading it back returns exactly the registered record. -/
theorem insert_get_roundtrip_witness :
    ((AgentDatabase.init false).insert_mcp_server "s1" "stdio" none cfg0 "T0"
        capsEcho).map (fun db' => db'.get_mcp_server "s1")
      = .ok (some
          { id := "s1", type := "stdio", description := none, config := cfg0
            created_at := "T0", last_verified := some "T0", status := "active"
            capabilities := capsEcho }) := by
  apply insert_get_roundtrip
  · intro s hs; simp [AgentDatabase.init, Store.empty] at hs
  · intro t ht; simp [AgentDatabase.init, Store.empty] at ht
  · intro r hr; simp [AgentDatabase.init, Store.empty] at hr
  · intro p hp; simp [AgentDatabase.init, Store.empty] at hp
  · intro t ht j hj
    simp only [capsEcho, List.mem_singleton] at ht
    rw [ht] at hj
    simp [toolEcho] at hj
  · intro p hp a ha
    simp [capsEcho] at hp

/-! ## C10 — the delete return flag on a `:memory:` database -/

/-- A `:memory:`-backed database (persistent connection) holding one
server, inserted through the same instance. -/
def dbMemEcho : AgentDatabase :=
  (((AgentDatabase.init true).insert_mcp_server "s1" "stdio" none cfg0 "T0"
      capsEcho).toOption).getD (AgentDatabase.init true)

/-- C10 (evaluation of the code at the failing input): on the `:memory:`
database, no server row with id `ghost` exists, and `delete_mcp_server
"ghost"` deletes nothing — yet it returns `True`, because
`conn.total_changes` on the reused persistent connection still counts the
earlier insert. The claimed contract (return `True` iff this call deleted a
row) is violated. -/
theorem delete_missing_id_returns_true_on_memory_db :
    (dbMemEcho.store.mcp_servers.map ServerRow.id) = ["s1"]
    ∧ (dbMemEcho.delete_mcp_server "ghost").2 = true
    ∧ ((dbMemEcho.delete_mcp_server "ghost").1.store.mcp_servers.map ServerRow.id)
      = ["s1"] :=
  ⟨rfl, rfl, rfl⟩

/-! ## C7 — search scoping for `kind = tool`

Relating the SQL `LIKE '%q%'` filter to the case-insensitive substring
test: they agree exactly when `q` contains no `LIKE` metacharacter
(`%` or `_`); a metacharacter in the query makes the SQL filter strictly
weaker than substring containment, which is the counterexample below. -/

/-- Some suffix of any list is empty, so the bare `%` pattern matches any
text. -/
theorem tails_any_isEmpty (ts : List Char) :
    ts.tails.any (fun l => l.isEmpty) = true := by
  induction ts with
  | nil => rfl
  | cons t ts ih => rw [List.tails_cons, List.any_cons, ih, Bool.or_true]

/-- The pattern consisting of a single `%` matches every text. -/
theorem likeChars_percent_nil (ts : List Char) : likeChars ['%'] ts = true := by
  simp only [likeChars, if_true]
  exact tails_any_isEmpty ts

/-- A wildcard-free pattern followed by `%` matches exactly the texts that
start with the pattern, up to ASCII case. -/
theorem likeChars_append_percent (q : List Char)
    (hq : ∀ c ∈ q, c ≠ '%' ∧ c ≠ '_') (ts : List Char) :
    likeChars (q ++ ['%']) ts = prefixAt (q.map lowerChar) (ts.map lowerChar) := by
  induction q generalizing ts with
  | nil =>
    rw [List.nil_append, likeChars_percent_nil]
    rfl
  | cons c q ih =>
    have hc := hq c (List.mem_cons_self c q)
    rw [List.cons_append]
    simp only [likeChars]
    rw [if_neg hc.1]
    cases ts with
    | nil => rfl
    | cons t ts' =>
      show ((if c = '_' then true else lowerChar c == lowerChar t) &&
          likeChars (q ++ ['%']) ts')
        = prefixAt (List.map lowerChar (c :: q)) (List.map lowerChar (t :: ts'))
      rw [if_neg hc.2]
      rw [ih (fun c' hc' => hq c' (List.mem_cons_of_mem c hc')) ts']
      rfl

/-- The substring test is the disjunction of the prefix tests over all
suffixes. -/
theorem occursIn_eq_any_tails (qs ts : List Char) :
    occursIn qs ts = ts.tails.any (fun l => prefixAt qs l) := by
  induction ts with
  | nil => cases qs <;> rfl
  | cons t ts ih =>
    simp only [occursIn, List.tails_cons, List.any_cons, ih]

/-- On a wildcard-free query `q`, the SQL filter `LIKE '%q%'` is exactly
the case-insensitive substring test. -/
theorem likeChars_percent_wrap (q : List Char)
    (hq : ∀ c ∈ q, c ≠ '%' ∧ c ≠ '_') (ts : List Char) :
    likeChars ('%' :: (q ++ ['%'])) ts
      = occursIn (q.map lowerChar) (ts.map lowerChar) := by
  simp only [likeChars, if_true]
  rw [occursIn_eq_any_tails, List.map_tails, List.any_map]
  congr 1
  funext l
  exact likeChars_append_percent q hq l

/-- String-level version: `text LIKE '%q%'` coincides with Python's
`q.lower() in text.lower()` whenever `q` has no `%` or `_`. -/
theorem sqlLike_eq_containsCI (q x : String)
    (hq : ∀ c ∈ q.data, c ≠ '%' ∧ c ≠ '_') :
    sqlLike ("%" ++ q ++ "%") x = containsCI q x := by
  have hdata : ("%" ++ q ++ "%").data = '%' :: (q.data ++ ['%']) := by
    simp [String.data_append]
  simp only [sqlLike]
  rw [hdata, likeChars_percent_wrap q.data hq]
  rfl

/-- The search entry the tool branch builds for server `s` (with a
query): the server's transport info, the Python-filtered tools, and empty
resource/prompt lists. -/
def searchEntryOf (db : AgentDatabase) (q : String) (s : ServerRow) :
    SearchEntry :=
  { server_id := s.id
    server_type := s.type
    server_description := s.description
    server_config := s.config
    matched_tools :=
      ((db.store.mcp_tools.filter (fun t => t.server_id == s.id)).map
        rowToToolCap).filter (toolCapContainsQuery q)
    matched_resources := []
    matched_prompts := [] }

/-- With unique server ids, `find?` on the server table at `s.id` returns
`s` itself. -/
theorem find?_server_nodup {l : List ServerRow}
    (hids : (l.map ServerRow.id).Nodup) {s : ServerRow} (hs : s ∈ l) :
    l.find? (fun x => x.id == s.id) = some s := by
  induction l with
  | nil => cases hs
  | cons a l ih =>
    rw [List.map_cons, List.nodup_cons] at hids
    rcases List.mem_cons.mp hs with rfl | hmem
    · simp [List.find?_cons]
    · have hne : (a.id == s.id) = false := by
        refine beq_eq_false_iff_ne.mpr ?_
        intro heq
        exact hids.1 (heq ▸ List.mem_map_of_mem ServerRow.id hmem)
      simp only [List.find?_cons, hne]
      exact ih hids.2 hmem

/-- With unique server ids, looking up a stored server row returns the
joined record for exactly that row. -/
theorem get_mcp_server_of_mem {db : AgentDatabase} {s : ServerRow}
    (hids : (db.store.mcp_servers.map ServerRow.id).Nodup)
    (hs : s ∈ db.store.mcp_servers) :
    db.get_mcp_server s.id = some
      { id := s.id, type := s.type, description := s.description
        config := s.config, created_at := s.created_at
        last_verified := s.last_verified, status := s.status
        capabilities :=
          { tools :=
              (db.store.mcp_tools.filter
                (fun t => t.server_id == s.id)).map rowToToolCap
            resources :=
              (db.store.mcp_resources.filter
                (fun r => r.server_id == s.id)).map rowToResourceCap
            prompts :=
              (db.store.mcp_prompts.filter
                (fun p => p.server_id == s.id)).map rowToPromptCap } } := by
  unfold AgentDatabase.get_mcp_server
  rw [find?_server_nodup hids hs]

/-- With unique server ids, the tool search is the entry-builder mapped
over the (limit-capped) list of active servers having a `LIKE`-matching
tool. -/
theorem search_tool_eq_map (db : AgentDatabase) (q : String)
    (sty : Option String) (limit : Nat)
    (hids : (db.store.mcp_servers.map ServerRow.id).Nodup) :
    search_mcp_capabilities_tool db (some q) sty limit
      = (((db.store.mcp_servers.filter (fun s =>
            s.status == "active" &&
              (match sty with
               | none => true
               | some ty => s.type == ty) &&
              serverHasLikedTool db (some q) s)).take limit).map
          (searchEntryOf db q)).take limit := by
  unfold search_mcp_capabilities_tool
  congr 1
  rw [← List.filterMap_eq_map (searchEntryOf db q)]
  apply List.filterMap_congr
  intro s hs
  have hmem : s ∈ db.store.mcp_servers :=
    List.mem_of_mem_filter (List.take_subset _ _ hs)
  rw [get_mcp_server_of_mem hids hmem]
  rfl

/-- C7 (amended): for any store with unique server ids and any query free
of the SQL `LIKE` metacharacters `%` and `_`, the tool search returns at
most `limit` entries; every entry carries empty `matched_resources` and
`matched_prompts`; no server id appears twice; and every entry belongs to
an `active` server owning at least one tool whose name or description
contains the query case-insensitively. (For queries containing `%` or `_`
the last property fails, see the counterexample.) -/
theorem search_tool_scoping (db : AgentDatabase) (q : String)
    (sty : Option String) (limit : Nat)
    (hq : ∀ c ∈ q.data, c ≠ '%' ∧ c ≠ '_')
    (hids : (db.store.mcp_servers.map ServerRow.id).Nodup) :
    (search_mcp_capabilities_tool db (some q) sty limit).length ≤ limit
    ∧ (∀ e ∈ search_mcp_capabilities_tool db (some q) sty limit,
        e.matched_resources = [] ∧ e.matched_prompts = [])
    ∧ ((search_mcp_capabilities_tool db (some q) sty limit).map
        SearchEntry.server_id).Nodup
    ∧ ∀ e ∈ search_mcp_capabilities_tool db (some q) sty limit,
        ∃ s ∈ db.store.mcp_servers, s.id = e.server_id ∧ s.status = "active"
          ∧ ∃ t ∈ db.store.mcp_tools, t.server_id = s.id
            ∧ (containsCI q t.name = true
               ∨ ∃ d, t.description = some d ∧ containsCI q d = true) := by
  rw [search_tool_eq_map db q sty limit hids]
  refine ⟨List.length_take_le .., ?_, ?_, ?_⟩
  · intro e he
    obtain ⟨s, _, hse⟩ := List.mem_map.mp (List.take_subset _ _ he)
    rw [← hse]
    exact ⟨rfl, rfl⟩
  · rw [List.map_take, List.map_map]
    have hcomp : (SearchEntry.server_id ∘ searchEntryOf db q) = ServerRow.id :=
      rfl
    rw [hcomp, List.map_take]
    have hsub1 : List.Sublist
        ((db.store.mcp_servers.filter (fun s =>
            s.status == "active" &&
              (match sty with
               | none => true
               | some ty => s.type == ty) &&
              serverHasLikedTool db (some q) s)).map ServerRow.id)
        (db.store.mcp_servers.map ServerRow.id) :=
      (List.filter_sublist _).map ServerRow.id
    exact (hids.sublist hsub1).sublist
      ((List.take_sublist ..).trans (List.take_sublist ..))
  · intro e he
    obtain ⟨s, hsmem, hse⟩ := List.mem_map.mp (List.take_subset _ _ he)
    have hfil := List.mem_filter.mp (List.take_subset _ _ hsmem)
    obtain ⟨hact, hliked⟩ := Bool.and_eq_true_iff.mp hfil.2
    obtain ⟨hstatus, _⟩ := Bool.and_eq_true_iff.mp hact
    have hliked' : ∃ r ∈ db.store.mcp_tools,
        r.server_id = s.id ∧ toolRowLikesQuery q r = true := by
      simpa [serverHasLikedTool] using hliked
    obtain ⟨r, hrmem, hrid, hrq⟩ := hliked'
    have hrq' : sqlLike ("%" ++ q ++ "%") r.name = true ∨
        (match r.description with
         | some d => sqlLike ("%" ++ q ++ "%") d
         | none => false) = true := by
      rw [toolRowLikesQuery] at hrq
      exact Bool.or_eq_true_iff.mp hrq
    refine ⟨s, hfil.1, by rw [← hse]; rfl, beq_iff_eq.mp hstatus,
      r, hrmem, hrid, ?_⟩
    rcases hrq' with hname | hdesc
    · exact Or.inl (by rw [← sqlLike_eq_containsCI q r.name hq]; exact hname)
    · cases hd : r.description with
      | none => rw [hd] at hdesc; simp at hdesc
      | some d =>
        rw [hd] at hdesc
        exact Or.inr ⟨d, rfl,
          by rw [← sqlLike_eq_containsCI q d hq]; exact hdesc⟩

/-- C7 amended-claim witness: on the one-server fixture store, searching
for the wildcard-free query `ech` returns at most 10 entries; the
hypotheses (no `LIKE` metacharacter in the query, unique server ids) are
discharged by computation. -/
theorem search_tool_scoping_witness :
    (search_mcp_capabilities_tool dbEcho (some "ech") none 10).length ≤ 10 :=
  (search_tool_scoping dbEcho "ech" none 10 (by decide) (by decide)).1

/-- C7 counterexample: with one active server `s1` whose single tool is
`echo` (description `Echo`), the query `e%o` — which contains the `LIKE`
wildcard `%` — returns an entry for `s1`, although no tool of `s1` has a
name or description containing `e%o` case-insensitively (accordingly, the
entry's Python-filtered `matched_tools` list is empty). The claim's scoping
property is false for this stored state and (non-empty) query. -/
theorem search_tool_wildcard_leak :
    ((search_mcp_capabilities_tool dbEcho (some "e%o") none 10).map
        SearchEntry.server_id) = ["s1"]
    ∧ ((search_mcp_capabilities_tool dbEcho (some "e%o") none 10).map
        (fun e => e.matched_tools.length)) = [0]
    ∧ (dbEcho.store.mcp_tools.map
        (fun t => containsCI "e%o" t.name
          || containsCI "e%o" (t.description.getD ""))) = [false] :=
  ⟨rfl, rfl, rfl⟩

/-! ## C3 — single-flight open -/

/-- Case split for reading an updated task list. -/
theorem get?_set_cases {l : List TaskPC} {i : Nat} {v : TaskPC} {j : Nat}
    {w : TaskPC} (h : (l.set i v).get? j = some w) :
    (j = i ∧ v = w) ∨ (j ≠ i ∧ l.get? j = some w) := by
  by_cases hij : j = i
  · subst hij
    refine Or.inl ⟨rfl, ?_⟩
    by_cases hlt : j < l.length
    · rw [List.get?_set_eq_of_lt v hlt] at h
      exact Option.some.inj h
    · have hnone : (l.set j v).get? j = none :=
        List.get?_eq_none.mpr (by simpa using Nat.le_of_not_lt hlt)
      rw [hnone] at h
      cases h
  · refine Or.inr ⟨hij, ?_⟩
    rw [← List.get?_set_ne v l (fun hc => hij hc.symm)]
    exact h

/-- Index bound extracted from a successful task read. -/
theorem lt_of_get?_eq_some {l : List TaskPC} {i : Nat} {w : TaskPC}
    (h : l.get? i = some w) : i < l.length := by
  by_contra hge
  rw [List.get?_eq_none.mpr (Nat.le_of_not_lt hge)] at h
  cases h

/-- The inductive invariant of the single-flight scenario: at most one open
has ever been executed; the pooled session (if any) is session 1 and was
produced by that single open; an in-flight open exists only with the lock
held, an empty pool, and is the single open; at most one task is opening at
a time and never with the lock free; while the pool is cold and no open is
in flight, no open has happened; and every finished task returned
session 1. -/
structure FlightInv (st : FlightState) : Prop where
  opensLe : st.opens ≤ 1
  poolOne : ∀ s, st.pool = some s → s = 1 ∧ st.opens = 1
  openingOne : ∀ i s, st.tasks.get? i = some (.opening s) →
    s = 1 ∧ st.opens = 1 ∧ st.lockHeld = true ∧ st.pool = none
  openingUnique : ∀ i j s s', st.tasks.get? i = some (.opening s) →
    st.tasks.get? j = some (.opening s') → i = j
  lockFreeNoOpening : st.lockHeld = false →
    ∀ i s, st.tasks.get? i ≠ some (.opening s)
  quiescentNoOpens : st.pool = none →
    (∀ i s, st.tasks.get? i ≠ some (.opening s)) → st.opens = 0
  doneOne : ∀ i s, st.tasks.get? i = some (.done s) → s = 1

/-- The cold initial state satisfies the invariant. -/
theorem flightInv_init (n : Nat) : FlightInv (FlightState.init n) := by
  have htask : ∀ i pc, (FlightState.init n).tasks.get? i = some pc →
      pc = TaskPC.start := by
    intro i pc h
    exact List.eq_of_mem_replicate (List.get?_mem h)
  refine ⟨Nat.zero_le 1, ?_, ?_, ?_, ?_, ?_, ?_⟩
  · intro s hs; cases hs
  · intro i s h; cases htask i _ h
  · intro i j s s' hi hj; cases htask i _ hi
  · intro _ i s h; have := htask i _ h; cases this
  · intro _ _; rfl
  · intro i s h; cases htask i _ h

/-- Every step of the scenario preserves the invariant. -/
theorem flightInv_step {st st' : FlightState} (hstep : FlightStep st st')
    (inv : FlightInv st) : FlightInv st' := by
  cases hstep with
  | hit i s hpc hpool =>
    obtain ⟨hs1, hopens⟩ := inv.poolOne s hpool
    refine ⟨inv.opensLe, inv.poolOne, ?_, ?_, ?_, ?_, ?_⟩
    · intro j s' hj
      rcases get?_set_cases hj with ⟨rfl, hv⟩ | ⟨hne, hold⟩
      · cases hv
      · exact inv.openingOne j s' hold
    · intro j k s' s'' hj hk
      rcases get?_set_cases hj with ⟨rfl, hv⟩ | ⟨hnej, holdj⟩
      · cases hv
      rcases get?_set_cases hk with ⟨rfl, hv⟩ | ⟨hnek, holdk⟩
      · cases hv
      exact inv.openingUnique j k s' s'' holdj holdk
    · intro hfree j s' hj
      rcases get?_set_cases hj with ⟨rfl, hv⟩ | ⟨hne, hold⟩
      · cases hv
      · exact inv.lockFreeNoOpening hfree j s' hold
    · intro hq
      rw [hpool] at hq
      cases hq
    · intro j s' hj
      rcases get?_set_cases hj with ⟨rfl, hv⟩ | ⟨hne, hold⟩
      · cases hv; exact hs1
      · exact inv.doneOne j s' hold
  | miss i hpc hpool =>
    refine ⟨inv.opensLe, inv.poolOne, ?_, ?_, ?_, ?_, ?_⟩
    · intro j s' hj
      rcases get?_set_cases hj with ⟨rfl, hv⟩ | ⟨hne, hold⟩
      · cases hv
      · exact inv.openingOne j s' hold
    · intro j k s' s'' hj hk
      rcases get?_set_cases hj with ⟨rfl, hv⟩ | ⟨hnej, holdj⟩
      · cases hv
      rcases get?_set_cases hk with ⟨rfl, hv⟩ | ⟨hnek, holdk⟩
      · cases hv
      exact inv.openingUnique j k s' s'' holdj holdk
    · intro hfree j s' hj
      rcases get?_set_cases hj with ⟨rfl, hv⟩ | ⟨hne, hold⟩
      · cases hv
      · exact inv.lockFreeNoOpening hfree j s' hold
    · intro hq hno
      refine inv.quiescentNoOpens hpool ?_
      intro j s' hold
      by_cases hji : j = i
      · subst hji; rw [hpc] at hold; cases hold
      · exact hno j s'
          (by rw [List.get?_set_ne TaskPC.waitLock st.tasks
              (fun hc => hji hc.symm)]; exact hold)
    · intro j s' hj
      rcases get?_set_cases hj with ⟨rfl, hv⟩ | ⟨hne, hold⟩
      · cases hv
      · exact inv.doneOne j s' hold
  | acquireHit i s hpc hlock hpool =>
    obtain ⟨hs1, hopens⟩ := inv.poolOne s hpool
    refine ⟨inv.opensLe, inv.poolOne, ?_, ?_, ?_, ?_, ?_⟩
    · intro j s' hj
      rcases get?_set_cases hj with ⟨rfl, hv⟩ | ⟨hne, hold⟩
      · cases hv
      · exact inv.openingOne j s' hold
    · intro j k s' s'' hj hk
      rcases get?_set_cases hj with ⟨rfl, hv⟩ | ⟨hnej, holdj⟩
      · cases hv
      rcases get?_set_cases hk with ⟨rfl, hv⟩ | ⟨hnek, holdk⟩
      · cases hv
      exact inv.openingUnique j k s' s'' holdj holdk
    · intro hfree j s' hj
      rcases get?_set_cases hj with ⟨rfl, hv⟩ | ⟨hne, hold⟩
      · cases hv
      · exact inv.lockFreeNoOpening hfree j s' hold
    · intro hq
      rw [hpool] at hq
      cases hq
    · intro j s' hj
      rcases get?_set_cases hj with ⟨rfl, hv⟩ | ⟨hne, hold⟩
      · cases hv; exact hs1
      · exact inv.doneOne j s' hold
  | acquireMiss i hpc hlock hpool =>
    have hnoopen : ∀ j s', st.tasks.get? j ≠ some (.opening s') :=
      inv.lockFreeNoOpening hlock
    have hzero : st.opens = 0 := inv.quiescentNoOpens hpool hnoopen
    have hlt : i < st.tasks.length := lt_of_get?_eq_some hpc
    refine ⟨show st.opens + 1 ≤ 1 by omega, ?_, ?_, ?_, ?_, ?_, ?_⟩
    · intro s hs; cases hs
    · intro j s' hj
      rcases get?_set_cases hj with ⟨rfl, hv⟩ | ⟨hne, hold⟩
      · cases hv; exact ⟨by omega, show st.opens + 1 = 1 by omega, rfl, rfl⟩
      · exact absurd hold (hnoopen j s')
    · intro j k s' s'' hj hk
      rcases get?_set_cases hj with ⟨rfl, _⟩ | ⟨hnej, holdj⟩
      · rcases get?_set_cases hk with ⟨rfl, _⟩ | ⟨hnek, holdk⟩
        · rfl
        · exact absurd holdk (hnoopen k s'')
      · exact absurd holdj (hnoopen j s')
    · intro hfree
      cases hfree
    · intro _ hno
      exact absurd (List.get?_set_eq_of_lt (TaskPC.opening (st.opens + 1)) hlt)
        (hno i (st.opens + 1))
    · intro j s' hj
      rcases get?_set_cases hj with ⟨rfl, hv⟩ | ⟨hne, hold⟩
      · cases hv
      · exact inv.doneOne j s' hold
  | finishOpen i s hpc =>
    obtain ⟨hs1, hopens, hlock, hpool⟩ := inv.openingOne i s hpc
    have hnoopen' : ∀ j s', (st.tasks.set i (.done s)).get? j ≠
        some (.opening s') := by
      intro j s' hj
      rcases get?_set_cases hj with ⟨rfl, hv⟩ | ⟨hne, hold⟩
      · cases hv
      · exact hne (inv.openingUnique j i s' s hold hpc)
    refine ⟨inv.opensLe, ?_, ?_, ?_, ?_, ?_, ?_⟩
    · intro s' hs'
      cases hs'
      exact ⟨hs1, hopens⟩
    · intro j s' hj
      exact absurd hj (hnoopen' j s')
    · intro j k s' s'' hj hk
      exact absurd hj (hnoopen' j s')
    · intro _ j s' hj
      exact absurd hj (hnoopen' j s')
    · intro hq
      cases hq
    · intro j s' hj
      rcases get?_set_cases hj with ⟨rfl, hv⟩ | ⟨hne, hold⟩
      · cases hv; exact hs1
      · exact inv.doneOne j s' hold

/-- The invariant holds in every reachable state. -/
theorem flightInv_reachable {n : Nat} {st : FlightState}
    (h : FlightReachable (FlightState.init n) st) : FlightInv st := by
  induction h with
  | refl => exact flightInv_init n
  | tail _ hstep ih => exact flightInv_step hstep ih

/-- C3: in every interleaving of any number of concurrent `get_connection`
calls for one server id against a cold pool (all opens succeeding), the
transport open is executed at most once, and any two callers that have
returned hold the same session. -/
theorem single_flight_open_at_most_once (n : Nat) (st : FlightState)
    (h : FlightReachable (FlightState.init n) st) :
    st.opens ≤ 1
    ∧ ∀ i j s s', st.tasks.get? i = some (.done s) →
        st.tasks.get? j = some (.done s') → s = s' := by
  have inv := flightInv_reachable h
  exact ⟨inv.opensLe, fun i j s s' hi hj =>
    (inv.doneOne i s hi).trans (inv.doneOne j s' hj).symm⟩

/-- C3 witness: an explicit five-step interleaving of two callers — caller
0 misses, takes the lock and opens; caller 1 misses and blocks; caller 0
finishes; caller 1 double-checks and returns the pooled session — reaches
a state with both callers done, and the theorem applies: one open
happened. -/
theorem single_flight_witness :
    (FlightState.mk (some 1) false 1 [TaskPC.done 1, TaskPC.done 1]).opens ≤ 1 := by
  have h01 : FlightStep (FlightState.init 2)
      (FlightState.mk none false 0 [TaskPC.waitLock, TaskPC.start]) :=
    FlightStep.miss _ 0 rfl rfl
  have h12 : FlightStep (FlightState.mk none false 0 [TaskPC.waitLock, TaskPC.start])
      (FlightState.mk none true 1 [TaskPC.opening 1, TaskPC.start]) :=
    FlightStep.acquireMiss _ 0 rfl rfl rfl
  have h23 : FlightStep (FlightState.mk none true 1 [TaskPC.opening 1, TaskPC.start])
      (FlightState.mk none true 1 [TaskPC.opening 1, TaskPC.waitLock]) :=
    FlightStep.miss _ 1 rfl rfl
  have h34 : FlightStep (FlightState.mk none true 1 [TaskPC.opening 1, TaskPC.waitLock])
      (FlightState.mk (some 1) false 1 [TaskPC.done 1, TaskPC.waitLock]) :=
    FlightStep.finishOpen _ 0 1 rfl
  have h45 : FlightStep (FlightState.mk (some 1) false 1 [TaskPC.done 1, TaskPC.waitLock])
      (FlightState.mk (some 1) false 1 [TaskPC.done 1, TaskPC.done 1]) :=
    FlightStep.acquireHit _ 1 1 rfl rfl rfl
  have hreach : FlightReachable (FlightState.init 2)
      (FlightState.mk (some 1) false 1 [TaskPC.done 1, TaskPC.done 1]) :=
    ((((Relation.ReflTransGen.refl.tail h01).tail h12).tail h23).tail h34).tail h45
  exact (single_flight_open_at_most_once 2 _ hreach).1

end AgentReg
